import Mathlib

/-!
Verification of the A/B-test analysis pipeline (`ab_test_analysis.py`,
class `ABTestAnalyzer`) against its specification.

The program is a linear pipeline over two Bernoulli-outcome cohorts:
data generation (seeded PRNG), basic metrics (rates, lift), a
two-proportion z-test, Wald confidence intervals, Cohen's h effect size,
business impact, and a final recommendation.  The embedding below
translates each stage from the source.  Exact arithmetic (ℚ for the
computable configuration layer, ℝ for the statistics) stands in for
Python floats on the non-degenerate paths; a dedicated `RFloat` type
models the IEEE special values (inf, -inf, nan) that numpy float64
arithmetic produces on the degenerate paths (division by zero with
warnings globally suppressed by `warnings.filterwarnings`).
-/

namespace ABTest

/-! ## Data generation (`__init__`, `_generate_data`, lines 28-71)

numpy's seeded global generator is an external library; we model it as a
deterministic stream driven by a `Nat` state (a linear congruential
step stands in for MT19937 — the bit stream differs, but the seeding and
state-threading semantics are those of `np.random`: `np.random.seed(s)`
replaces the global state by a function of `s` alone, and each
`np.random.binomial(1, p, size)` call consumes the stream sequentially).
`np.random.binomial` validates its arguments: it raises `ValueError`
when `p` is outside `[0, 1]` or when `size` is negative; a zero `size`
is accepted and yields an empty sample. -/

/-- One step of the modelled pseudo-random generator. -/
def rngNext (s : Nat) : Nat := (1664525 * s + 1013904223) % 4294967296

/-- Model of `np.random.seed`: the prior global state `g` is discarded
and the state becomes a function of the seed alone. -/
def npSeed (_g : Nat) (seed : Nat) : Nat := seed

/-- Draw `n` Bernoulli(`p`) outcomes, threading the generator state:
each draw compares a uniform variate in `[0,1)` against `p`. Returns
the outcomes and the final state. -/
def draws (p : ℚ) : Nat → Nat → List Bool × Nat
  | 0, s => ([], s)
  | Nat.succ n, s =>
      let v := rngNext s
      let rest := draws p n v
      (decide ((v : ℚ) / 4294967296 < p) :: rest.1, rest.2)

/-- Error raised by the binomial sampler (`ValueError` in numpy). -/
inductive GenError where
  | invalidProbability
  | negativeSize
deriving DecidableEq

/-- Model of `np.random.binomial(1, p, size)` acting on the global
state `s`: numpy rejects `p` outside `[0,1]` and a negative `size`;
otherwise it returns `size` Bernoulli draws. -/
def binomialDraws (p : ℚ) (size : ℤ) (s : Nat) : Except GenError (List Bool × Nat) :=
  if p < 0 ∨ 1 < p then .error .invalidProbability
  else if size < 0 then .error .negativeSize
  else .ok (draws p size.toNat s)

/-- Constructor arguments of `ABTestAnalyzer.__init__` (lines 28-29). -/
structure Config where
  control_rate : ℚ
  treatment_rate : ℚ
  n_per_group : ℤ
  alpha : ℚ
deriving DecidableEq

/-- The analyzer after `__init__`: the stored configuration and the two
generated cohorts (the `converted` column of `self.df`, split by group). -/
structure Analyzer where
  config : Config
  control : List Bool
  treatment : List Bool
deriving DecidableEq

/-- Embedding of `ABTestAnalyzer.__init__` (lines 28-56) started from
ambient global generator state `g`: it stores the parameters unchecked,
calls `np.random.seed(42)`, and generates the control then the
treatment cohort.  There is no validation step of its own; the only
errors are those raised inside data generation by the binomial sampler. -/
def initAnalyzer (cfg : Config) (g : Nat) : Except GenError Analyzer :=
  match binomialDraws cfg.control_rate cfg.n_per_group (npSeed g 42) with
  | .error e => .error e
  | .ok c =>
      match binomialDraws cfg.treatment_rate cfg.n_per_group c.2 with
      | .error e => .error e
      | .ok t => .ok ⟨cfg, c.1, t.1⟩

/-! ## Basic metrics (`calculate_basic_metrics`, lines 73-88) -/

/-- Number of conversions in a cohort (`summary['sum']`). -/
def successes (l : List Bool) : ℕ := l.count true

/-- Empirical conversion rate of a cohort (`summary['mean']`,
i.e. successes / count). -/
noncomputable def rate (l : List Bool) : ℝ := (successes l : ℝ) / (l.length : ℝ)

/-- Line 80: `absolute_lift = treatment_rate - control_rate`. -/
noncomputable def absoluteLift (c t : List Bool) : ℝ := rate t - rate c

/-- Line 81: `relative_lift = (treatment_rate / control_rate - 1) * 100`,
on the non-degenerate path where the control rate is nonzero. -/
noncomputable def relativeLift (c t : List Bool) : ℝ := (rate t / rate c - 1) * 100

/-! ## Hypothesis test (`run_hypothesis_test`, lines 90-119) -/

/-- Standard normal CDF, the model of `scipy.stats.norm.cdf`:
Φ(x) = (∫_{-∞}^{x} exp(-t²/2) dt) / √(2π). -/
noncomputable def stdNormCDF (x : ℝ) : ℝ :=
  (∫ t in Set.Iic x, Real.exp (-(1 / 2) * t ^ 2)) / Real.sqrt (2 * Real.pi)

/-- Line 101: pooled proportion `(s_c + s_t) / (n_c + n_t)`. -/
noncomputable def pooledProb (c t : List Bool) : ℝ :=
  ((successes c : ℝ) + (successes t : ℝ)) / ((c.length : ℝ) + (t.length : ℝ))

/-- The radicand of the pooled standard error,
`p * (1 - p) * (1/n_c + 1/n_t)` (lines 102-103). -/
noncomputable def pooledVariance (c t : List Bool) : ℝ :=
  pooledProb c t * (1 - pooledProb c t) * (1 / (c.length : ℝ) + 1 / (t.length : ℝ))

/-- Lines 102-103: pooled standard error. -/
noncomputable def pooledSE (c t : List Bool) : ℝ := Real.sqrt (pooledVariance c t)

/-- Line 106: `z = (treatment_rate - control_rate) / pooled_se`, on the
non-degenerate path where the pooled standard error is nonzero. -/
noncomputable def zStat (c t : List Bool) : ℝ := (rate t - rate c) / pooledSE c t

/-- Line 109: two-tailed p-value `2 * (1 - Φ(|z|))`. -/
noncomputable def pValue (c t : List Bool) : ℝ := 2 * (1 - stdNormCDF |zStat c t|)

/-! ## Confidence intervals (`calculate_confidence_intervals`, lines 121-149) -/

/-- Model of `scipy.stats.norm.ppf`: the quantile function of the
standard normal distribution. -/
noncomputable def normPPF (q : ℝ) : ℝ := sInf {x : ℝ | q ≤ stdNormCDF x}

/-- The inner helper `ci(successes, n, confidence=0.95)` (lines 123-128):
Wald interval `prop ± Φ⁻¹(1 - (1 - 0.95)/2) * sqrt(prop*(1-prop)/n)`.
The confidence level is the fixed default 0.95 at both call sites. -/
noncomputable def waldCI (s n : ℕ) : ℝ × ℝ :=
  let prop : ℝ := (s : ℝ) / (n : ℝ)
  let z_critical := normPPF (1 - (1 - 0.95) / 2)
  let se := Real.sqrt (prop * (1 - prop) / (n : ℝ))
  let margin := z_critical * se
  (prop - margin, prop + margin)

/-- The state the `calculate_confidence_intervals` method can read from
`self`: the two cohorts, `n_per_group`, and the configured `alpha`. -/
structure AnalyzerState where
  control : List Bool
  treatment : List Bool
  n_per_group : ℕ
  alpha : ℝ

/-- Embedding of `calculate_confidence_intervals` (lines 121-149):
per-cohort Wald 95% intervals, and the difference interval
`diff ± 1.96 * sqrt(r_c(1-r_c)/n + r_t(1-r_t)/n)` with the hardcoded
critical value 1.96 (line 142).  The method never reads `self.alpha`. -/
noncomputable def calculateConfidenceIntervals (a : AnalyzerState) :
    (ℝ × ℝ) × (ℝ × ℝ) × (ℝ × ℝ) :=
  let control_ci := waldCI (successes a.control) a.control.length
  let treatment_ci := waldCI (successes a.treatment) a.treatment.length
  let rc := rate a.control
  let rt := rate a.treatment
  let diff := rt - rc
  let se_diff := Real.sqrt
    (rc * (1 - rc) / (a.n_per_group : ℝ) + rt * (1 - rt) / (a.n_per_group : ℝ))
  let diff_ci := (diff - 1.96 * se_diff, diff + 1.96 * se_diff)
  (control_ci, treatment_ci, diff_ci)

/-! ## Effect size (`calculate_effect_size`, lines 151-166) -/

/-- Effect-size buckets printed by the report. -/
inductive EffectCategory where
  | Small
  | Medium
  | Large
deriving DecidableEq

/-- Lines 153-154: Cohen's h
`= 2 * (arcsin(sqrt(treatment_rate)) - arcsin(sqrt(control_rate)))`. -/
noncomputable def cohensH (rc rt : ℝ) : ℝ :=
  2 * (Real.arcsin (Real.sqrt rt) - Real.arcsin (Real.sqrt rc))

open Classical in
/-- Lines 156-161: the branching on `abs(h)`. -/
noncomputable def effectCategory (h : ℝ) : EffectCategory :=
  if |h| < 0.2 then .Small else if |h| < 0.5 then .Medium else .Large

/-- Embedding of `calculate_effect_size` on the empirical rates. -/
noncomputable def calculateEffectSize (rc rt : ℝ) : ℝ × EffectCategory :=
  (cohensH rc rt, effectCategory (cohensH rc rt))

/-! ## Business impact (`calculate_business_impact`, lines 194-210) -/

/-- Embedding of `calculate_business_impact`: the code computes the
projected and current totals and returns their differences
(`additional_conversions`, `additional_revenue`). -/
noncomputable def calculateBusinessImpact (monthly_visitors avg_order_value rc rt : ℝ) :
    ℝ × ℝ :=
  let current_conversions := monthly_visitors * rc
  let projected_conversions := monthly_visitors * rt
  let current_revenue := current_conversions * avg_order_value
  let projected_revenue := projected_conversions * avg_order_value
  (projected_conversions - current_conversions, projected_revenue - current_revenue)

/-! ## Full pipeline and recommendation (`run_full_analysis`, lines 212-282)

The power-analysis stage (`calculate_power`, lines 168-192) writes only
`achieved_power` and `required_n`, which no later stage and not the
recommendation reads; it is omitted from the result record. -/

/-- Final verdict printed in section 7 of the report. -/
inductive Recommendation where
  | proceed
  | insufficientEvidence
deriving DecidableEq

/-- The fields of `self.results` read by the report and the verdict. -/
structure Results where
  control_rate : ℝ
  treatment_rate : ℝ
  absolute_lift : ℝ
  relative_lift : ℝ
  z_stat : ℝ
  p_value : ℝ
  control_ci : ℝ × ℝ
  treatment_ci : ℝ × ℝ
  diff_ci : ℝ × ℝ
  cohens_h : ℝ
  effect_category : EffectCategory
  additional_conversions : ℝ
  additional_revenue : ℝ
  recommendation : Recommendation

open Classical in
/-- Embedding of `run_full_analysis`: the six stages in order, with
`is_significant := p_value < alpha` computed at line 235 and the final
branch `if is_significant and diff_ci[0] > 0` at line 271. -/
noncomputable def runFullAnalysis (a : AnalyzerState)
    (monthly_visitors avg_order_value : ℝ) : Results :=
  let rc := rate a.control
  let rt := rate a.treatment
  let z := zStat a.control a.treatment
  let p := pValue a.control a.treatment
  let is_significant : Prop := p < a.alpha
  let cis := calculateConfidenceIntervals a
  let eff := calculateEffectSize rc rt
  let impact := calculateBusinessImpact monthly_visitors avg_order_value rc rt
  ⟨rc, rt, absoluteLift a.control a.treatment, relativeLift a.control a.treatment,
   z, p, cis.1, cis.2.1, cis.2.2, eff.1, eff.2, impact.1, impact.2,
   if is_significant ∧ cis.2.2.1 > 0 then .proceed else .insufficientEvidence⟩

/-- Run the pipeline on a freshly initialised analyzer (as `main` does),
mapping a generation error to `none`. -/
noncomputable def analyzeGenerated (r : Except GenError Analyzer)
    (monthly_visitors avg_order_value : ℝ) : Option Results :=
  match r with
  | .error _ => none
  | .ok a =>
      some (runFullAnalysis
        ⟨a.control, a.treatment, a.config.n_per_group.toNat, (a.config.alpha : ℝ)⟩
        monthly_visitors avg_order_value)

/-! ## Degenerate paths under numpy float64 semantics

The script globally suppresses warnings (line 22,
`warnings.filterwarnings`).  On numpy float64 values, division by zero
does not raise: it produces `inf`, `-inf` or `nan` (with a suppressed
`RuntimeWarning`), and these special values propagate through further
arithmetic into `self.results`.  `RFloat` models a float64 value as
either a finite value (an exact real) or one of the IEEE special
values, with the IEEE rules for the operations the degenerate paths
use. -/

/-- A numpy float64 value: finite (modelled exactly), or an IEEE
special value. -/
inductive RFloat where
  | fin (x : ℝ)
  | inf
  | neginf
  | nan

open Classical in
/-- IEEE subtraction on float64 values. -/
noncomputable def RFloat.sub : RFloat → RFloat → RFloat
  | nan, _ => nan
  | _, nan => nan
  | fin a, fin b => fin (a - b)
  | inf, inf => nan
  | inf, _ => inf
  | neginf, neginf => nan
  | neginf, _ => neginf
  | fin _, inf => neginf
  | fin _, neginf => inf

open Classical in
/-- IEEE multiplication on float64 values. -/
noncomputable def RFloat.mul : RFloat → RFloat → RFloat
  | nan, _ => nan
  | _, nan => nan
  | fin a, fin b => fin (a * b)
  | inf, fin b => if 0 < b then inf else if b < 0 then neginf else nan
  | fin a, inf => if 0 < a then inf else if a < 0 then neginf else nan
  | neginf, fin b => if 0 < b then neginf else if b < 0 then inf else nan
  | fin a, neginf => if 0 < a then neginf else if a < 0 then inf else nan
  | inf, inf => inf
  | inf, neginf => neginf
  | neginf, inf => neginf
  | neginf, neginf => inf

open Classical in
/-- IEEE division on float64 values: a finite nonzero value divided by
zero is a signed infinity, zero divided by zero is `nan`, and no
exception is raised. -/
noncomputable def RFloat.div : RFloat → RFloat → RFloat
  | nan, _ => nan
  | _, nan => nan
  | fin a, fin b =>
      if b = 0 then (if 0 < a then inf else if a < 0 then neginf else nan)
      else fin (a / b)
  | inf, fin b => if 0 ≤ b then inf else neginf
  | neginf, fin b => if 0 ≤ b then neginf else inf
  | fin _, inf => fin 0
  | fin _, neginf => fin 0
  | inf, _ => nan
  | neginf, _ => nan

open Classical in
/-- `np.sqrt` on float64 values: `nan` on negative input (suppressed
warning), exact on nonnegative finite input. -/
noncomputable def RFloat.sqrtF : RFloat → RFloat
  | nan => nan
  | inf => inf
  | neginf => nan
  | fin a => if a < 0 then nan else fin (Real.sqrt a)

/-- Line 81 under float64 semantics:
`relative_lift = (treatment_rate / control_rate - 1) * 100`, with the
division producing an IEEE special value when the control rate is 0. -/
noncomputable def relativeLiftF (c t : List Bool) : RFloat :=
  (((RFloat.fin (rate t)).div (RFloat.fin (rate c))).sub (RFloat.fin 1)).mul
    (RFloat.fin 100)

/-- Lines 102-106 under float64 semantics:
`z = (treatment_rate - control_rate) / sqrt(pooled_variance)`, with the
division producing an IEEE special value when the pooled variance is 0. -/
noncomputable def zStatF (c t : List Bool) : RFloat :=
  (RFloat.fin (rate t - rate c)).div (RFloat.sqrtF (RFloat.fin (pooledVariance c t)))

/-! ## Theorems -/

/-- Helper: the modelled standard normal CDF takes the value 1/2 at 0,
by splitting the Gaussian integral at 0. -/
theorem stdNormCDF_zero : stdNormCDF 0 = 1 / 2 := by
  have hb : (0 : ℝ) < 1 / 2 := by norm_num
  have hint := integrable_exp_neg_mul_sq hb
  have hsplit : (∫ t in Set.Iic (0 : ℝ), Real.exp (-(1 / 2) * t ^ 2)) +
      (∫ t in Set.Ioi (0 : ℝ), Real.exp (-(1 / 2) * t ^ 2)) =
      ∫ t : ℝ, Real.exp (-(1 / 2) * t ^ 2) :=
    intervalIntegral.integral_Iic_add_Ioi hint.integrableOn hint.integrableOn
  have htot : (∫ t : ℝ, Real.exp (-(1 / 2) * t ^ 2)) = Real.sqrt (Real.pi / (1 / 2)) :=
    integral_gaussian (1 / 2)
  have hioi : (∫ t in Set.Ioi (0 : ℝ), Real.exp (-(1 / 2) * t ^ 2)) =
      Real.sqrt (Real.pi / (1 / 2)) / 2 :=
    integral_gaussian_Ioi (1 / 2)
  have hpi : Real.pi / (1 / 2 : ℝ) = 2 * Real.pi := by ring
  rw [htot, hioi, hpi] at hsplit
  have hIic : (∫ t in Set.Iic (0 : ℝ), Real.exp (-(1 / 2) * t ^ 2)) =
      Real.sqrt (2 * Real.pi) / 2 := by linarith
  have hne : Real.sqrt (2 * Real.pi) ≠ 0 :=
    ne_of_gt (Real.sqrt_pos.mpr (by positivity))
  unfold stdNormCDF
  rw [hIic]
  field_simp
  ring

/-- Claim C1: the final recommendation is "proceed" if and only if the
hypothesis-test p-value is strictly less than alpha and the lower bound
of the difference confidence interval is strictly greater than 0; in
every other case it is "insufficient evidence". -/
theorem recommendation_rule (a : AnalyzerState) (mv aov : ℝ) :
    (runFullAnalysis a mv aov).recommendation = Recommendation.proceed ↔
      ((runFullAnalysis a mv aov).p_value < a.alpha ∧
        0 < (runFullAnalysis a mv aov).diff_ci.1) := by
  simp only [runFullAnalysis]
  split_ifs with h
  · exact iff_of_true rfl h
  · exact iff_of_false (by simp) h

/-- Claim C5: the relative lift is `(rate_t / rate_c - 1) * 100`, the
absolute lift is `rate_t - rate_c`, and whenever the control rate is
nonzero the algebraic round-trip
`rate_t = rate_c * (1 + relative_lift / 100)` holds exactly. -/
theorem relative_lift_roundtrip (c t : List Bool) (h : rate c ≠ 0) :
    relativeLift c t = (rate t / rate c - 1) * 100 ∧
    absoluteLift c t = rate t - rate c ∧
    rate t = rate c * (1 + relativeLift c t / 100) := by
  refine ⟨rfl, rfl, ?_⟩
  unfold relativeLift
  field_simp
  ring

/-- Witness for C5 at the one-element cohorts with control rate 1. -/
theorem relative_lift_roundtrip_witness :
    rate [true] ≠ 0 ∧
      (relativeLift [true] [true] = (rate [true] / rate [true] - 1) * 100 ∧
       absoluteLift [true] [true] = rate [true] - rate [true] ∧
       rate [true] = rate [true] * (1 + relativeLift [true] [true] / 100)) := by
  have h : rate [true] ≠ 0 := by
    norm_num [rate, show successes [true] = 1 from rfl]
  exact ⟨h, relative_lift_roundtrip [true] [true] h⟩

/-- Claim C6: every confidence interval computed (control and treatment
Wald 95% intervals and the difference interval) is symmetric about its
point estimate: the lower bound equals twice the estimate minus the
upper bound. -/
theorem ci_symmetry (a : AnalyzerState) (hn : 0 < a.n_per_group)
    (hc : 0 < a.control.length) (ht : 0 < a.treatment.length) :
    (calculateConfidenceIntervals a).1.1
        = 2 * rate a.control - (calculateConfidenceIntervals a).1.2 ∧
    (calculateConfidenceIntervals a).2.1.1
        = 2 * rate a.treatment - (calculateConfidenceIntervals a).2.1.2 ∧
    (calculateConfidenceIntervals a).2.2.1
        = 2 * (rate a.treatment - rate a.control)
            - (calculateConfidenceIntervals a).2.2.2 := by
  refine ⟨?_, ?_, ?_⟩ <;>
    simp only [calculateConfidenceIntervals, waldCI, rate] <;> ring

/-- Witness for C6 on two-element cohorts. -/
theorem ci_symmetry_witness :
    (0 < (2 : ℕ) ∧ 0 < [true, false].length ∧ 0 < [true, true].length) ∧
      ((calculateConfidenceIntervals ⟨[true, false], [true, true], 2, 5 / 100⟩).1.1
          = 2 * rate [true, false]
            - (calculateConfidenceIntervals ⟨[true, false], [true, true], 2, 5 / 100⟩).1.2 ∧
       (calculateConfidenceIntervals ⟨[true, false], [true, true], 2, 5 / 100⟩).2.1.1
          = 2 * rate [true, true]
            - (calculateConfidenceIntervals ⟨[true, false], [true, true], 2, 5 / 100⟩).2.1.2 ∧
       (calculateConfidenceIntervals ⟨[true, false], [true, true], 2, 5 / 100⟩).2.2.1
          = 2 * (rate [true, true] - rate [true, false])
            - (calculateConfidenceIntervals ⟨[true, false], [true, true], 2, 5 / 100⟩).2.2.2) :=
  ⟨⟨by decide, by decide, by decide⟩,
    ci_symmetry ⟨[true, false], [true, true], 2, 5 / 100⟩ (by decide) (by decide) (by decide)⟩

/-- Claim C7: the business-impact stage, though written as a difference
of projected and current totals, returns exactly
`additional_conversions = monthly_visitors * (rate_t - rate_c)` and
`additional_revenue = additional_conversions * avg_order_value`; at
100000 visitors, rates 0.10 and 0.12, and order value 50, the
additional revenue is 100000. -/
theorem business_impact_spec (mv aov rc rt : ℝ) :
    (calculateBusinessImpact mv aov rc rt).1 = mv * (rt - rc) ∧
    (calculateBusinessImpact mv aov rc rt).2
        = (calculateBusinessImpact mv aov rc rt).1 * aov ∧
    (calculateBusinessImpact 100000 50 0.10 0.12).2 = 100000 := by
  refine ⟨?_, ?_, ?_⟩ <;> simp only [calculateBusinessImpact]
  · ring
  · ring
  · norm_num

/-- Claim C8: the z-test computes `z = (rate_t - rate_c) / pooled_se`
and the two-tailed p-value `2 * (1 - Φ(|z|))`; consequently two cohorts
of equal size with identical empirical rates (and nonzero pooled
variance) give `z = 0` and `p = 1`. -/
theorem ztest_equal_rates (c t : List Bool) (hlen : c.length = t.length)
    (hrate : rate c = rate t) (hvar : pooledVariance c t ≠ 0) :
    zStat c t = (rate t - rate c) / pooledSE c t ∧
    pValue c t = 2 * (1 - stdNormCDF |zStat c t|) ∧
    zStat c t = 0 ∧ pValue c t = 1 := by
  have hz : zStat c t = 0 := by
    unfold zStat
    rw [hrate, sub_self, zero_div]
  refine ⟨rfl, rfl, hz, ?_⟩
  unfold pValue
  rw [hz, abs_zero, stdNormCDF_zero]
  norm_num

/-- Witness for C8 on two cohorts of size 2 with one conversion each. -/
theorem ztest_equal_rates_witness :
    ([true, false].length = [false, true].length ∧
      rate [true, false] = rate [false, true] ∧
      pooledVariance [true, false] [false, true] ≠ 0) ∧
    (zStat [true, false] [false, true]
        = (rate [false, true] - rate [true, false]) / pooledSE [true, false] [false, true] ∧
      pValue [true, false] [false, true]
        = 2 * (1 - stdNormCDF |zStat [true, false] [false, true]|) ∧
      zStat [true, false] [false, true] = 0 ∧
      pValue [true, false] [false, true] = 1) := by
  have h1 : [true, false].length = [false, true].length := rfl
  have h2 : rate [true, false] = rate [false, true] := by
    norm_num [rate, show successes [true, false] = 1 from rfl,
      show successes [false, true] = 1 from rfl]
  have h3 : pooledVariance [true, false] [false, true] ≠ 0 := by
    norm_num [pooledVariance, pooledProb,
      show successes [true, false] = 1 from rfl,
      show successes [false, true] = 1 from rfl]
  exact ⟨⟨h1, h2, h3⟩, ztest_equal_rates [true, false] [false, true] h1 h2 h3⟩

/-- Helper: the Small branch of the category test is taken exactly
below 0.2. -/
theorem effectCategory_small_iff (x : ℝ) :
    effectCategory x = EffectCategory.Small ↔ |x| < 0.2 := by
  unfold effectCategory
  split_ifs with hA hB
  · exact iff_of_true rfl hA
  · exact iff_of_false (by decide) hA
  · exact iff_of_false (by decide) hA

/-- Helper: the Medium branch is taken exactly on `[0.2, 0.5)`; in
particular the boundary 0.2 goes to Medium, not Small. -/
theorem effectCategory_medium_iff (x : ℝ) :
    effectCategory x = EffectCategory.Medium ↔ 0.2 ≤ |x| ∧ |x| < 0.5 := by
  unfold effectCategory
  split_ifs with hA hB
  · exact iff_of_false (by decide) (fun hx => (not_le.mpr hA) hx.1)
  · exact iff_of_true rfl ⟨not_lt.mp hA, hB⟩
  · exact iff_of_false (by decide) (fun hx => hB hx.2)

/-- Helper: the Large branch is taken exactly from 0.5 up; in
particular the boundary 0.5 goes to Large, not Medium. -/
theorem effectCategory_large_iff (x : ℝ) :
    effectCategory x = EffectCategory.Large ↔ 0.5 ≤ |x| := by
  unfold effectCategory
  split_ifs with hA hB
  · exact iff_of_false (by decide)
      (not_le.mpr (lt_trans hA (by norm_num)))
  · exact iff_of_false (by decide) (not_le.mpr hB)
  · exact iff_of_true rfl (not_lt.mp hB)

/-- Claim C4: the effect size is Cohen's h
`= 2 * (arcsin(sqrt(rate_t)) - arcsin(sqrt(rate_c)))`, and the category
is determined by `|h|` with boundaries going to the higher category:
`|h| < 0.2` is Small, `0.2 ≤ |h| < 0.5` is Medium, `0.5 ≤ |h|` is
Large; in particular `|h| = 0.2` is Medium and `|h| = 0.5` is Large. -/
theorem effect_size_spec (rc rt : ℝ) (h0c : 0 ≤ rc) (h1c : rc ≤ 1)
    (h0t : 0 ≤ rt) (h1t : rt ≤ 1) :
    (calculateEffectSize rc rt).1
        = 2 * (Real.arcsin (Real.sqrt rt) - Real.arcsin (Real.sqrt rc)) ∧
    ((calculateEffectSize rc rt).2 = EffectCategory.Small ↔
        |(calculateEffectSize rc rt).1| < 0.2) ∧
    ((calculateEffectSize rc rt).2 = EffectCategory.Medium ↔
        0.2 ≤ |(calculateEffectSize rc rt).1| ∧
          |(calculateEffectSize rc rt).1| < 0.5) ∧
    ((calculateEffectSize rc rt).2 = EffectCategory.Large ↔
        0.5 ≤ |(calculateEffectSize rc rt).1|) :=
  ⟨rfl, effectCategory_small_iff (cohensH rc rt),
    effectCategory_medium_iff (cohensH rc rt),
    effectCategory_large_iff (cohensH rc rt)⟩

/-- Witness for C4 at rates 0 and 1 (both in [0, 1]). -/
theorem effect_size_spec_witness :
    ((0 : ℝ) ≤ 0 ∧ (0 : ℝ) ≤ 1 ∧ (0 : ℝ) ≤ 1 ∧ (1 : ℝ) ≤ 1) ∧
      ((calculateEffectSize 0 1).1
          = 2 * (Real.arcsin (Real.sqrt 1) - Real.arcsin (Real.sqrt 0)) ∧
       ((calculateEffectSize 0 1).2 = EffectCategory.Small ↔
          |(calculateEffectSize 0 1).1| < 0.2) ∧
       ((calculateEffectSize 0 1).2 = EffectCategory.Medium ↔
          0.2 ≤ |(calculateEffectSize 0 1).1| ∧ |(calculateEffectSize 0 1).1| < 0.5) ∧
       ((calculateEffectSize 0 1).2 = EffectCategory.Large ↔
          0.5 ≤ |(calculateEffectSize 0 1).1|)) :=
  ⟨by norm_num,
    effect_size_spec 0 1 le_rfl (by norm_num) (by norm_num) le_rfl⟩

/-- Helper: the modelled binomial sampler succeeds exactly when the
probability lies in [0, 1] and the requested size is nonnegative. -/
theorem binomialDraws_ok_iff (p : ℚ) (size : ℤ) (s : Nat) :
    (∃ r, binomialDraws p size s = Except.ok r) ↔
      (0 ≤ p ∧ p ≤ 1 ∧ 0 ≤ size) := by
  unfold binomialDraws
  split_ifs with h1 h2
  · constructor
    · rintro ⟨r, hr⟩
      exact absurd hr (by simp)
    · rintro ⟨hA, hB, _⟩
      rcases h1 with h | h
      · exact absurd hA (not_le.mpr h)
      · exact absurd hB (not_le.mpr h)
  · constructor
    · rintro ⟨r, hr⟩
      exact absurd hr (by simp)
    · rintro ⟨_, _, hC⟩
      exact absurd hC (not_le.mpr h2)
  · push_neg at h1
    exact iff_of_true ⟨draws p size.toNat s, rfl⟩ ⟨h1.1, h1.2, not_lt.mp h2⟩

/-- Counterexample to C3 as stated: the configuration with
`n_per_group = 0` (non-positive) is not rejected — initialization
succeeds and data generation runs, producing empty cohorts. -/
theorem config_rejection_counterexample :
    (Config.mk (12 / 100) (145 / 1000) 0 (5 / 100)).n_per_group ≤ 0 ∧
      ∃ a, initAnalyzer (Config.mk (12 / 100) (145 / 1000) 0 (5 / 100)) 0
            = Except.ok a := by
  refine ⟨le_refl 0, ⟨⟨Config.mk (12 / 100) (145 / 1000) 0 (5 / 100), [], []⟩, ?_⟩⟩
  have hc : binomialDraws (12 / 100 : ℚ) 0 42 = Except.ok ([], 42) := by
    unfold binomialDraws
    rw [if_neg (by norm_num), if_neg (by norm_num)]
    rfl
  have ht : binomialDraws (145 / 1000 : ℚ) 0 42 = Except.ok ([], 42) := by
    unfold binomialDraws
    rw [if_neg (by norm_num), if_neg (by norm_num)]
    rfl
  unfold initAnalyzer
  simp only [npSeed, hc, ht]

/-- Claim C3 as amended: the constructor performs no validation of its
own; initialization succeeds exactly when both configured rates lie in
[0, 1] and the sample size is nonnegative — the errors for out-of-range
rates and negative sizes are raised by the binomial sampler during data
generation, and a zero sample size is accepted rather than rejected. -/
theorem config_validation_amended (cfg : Config) (g : Nat) :
    (∃ a, initAnalyzer cfg g = Except.ok a) ↔
      (0 ≤ cfg.control_rate ∧ cfg.control_rate ≤ 1 ∧
        0 ≤ cfg.treatment_rate ∧ cfg.treatment_rate ≤ 1 ∧
        0 ≤ cfg.n_per_group) := by
  constructor
  · rintro ⟨a, ha⟩
    unfold initAnalyzer at ha
    split at ha
    next e heq => exact absurd ha (by simp)
    next c heq =>
      split at ha
      next e2 heq2 => exact absurd ha (by simp)
      next t heq2 =>
        have h1 := (binomialDraws_ok_iff cfg.control_rate cfg.n_per_group
          (npSeed g 42)).mp ⟨c, heq⟩
        have h2 := (binomialDraws_ok_iff cfg.treatment_rate cfg.n_per_group
          c.2).mp ⟨t, heq2⟩
        exact ⟨h1.1, h1.2.1, h2.1, h2.2.1, h1.2.2⟩
  · rintro ⟨hA, hB, hC, hD, hE⟩
    unfold initAnalyzer
    rcases (binomialDraws_ok_iff cfg.control_rate cfg.n_per_group
        (npSeed g 42)).mpr ⟨hA, hB, hE⟩ with ⟨c, hc⟩
    simp only [hc]
    rcases (binomialDraws_ok_iff cfg.treatment_rate cfg.n_per_group
        c.2).mpr ⟨hC, hD, hE⟩ with ⟨t, ht⟩
    simp only [ht]
    exact ⟨⟨cfg, c.1, t.1⟩, rfl⟩

/-- Counterexample to C2 as stated: at the degenerate inputs the code
does not surface an error — with a zero control rate the relative lift
is the silently propagated infinity, and with all-identical outcomes in
both groups (zero pooled variance) the z-statistic is the silently
propagated `nan`. -/
theorem degenerate_silent_counterexample :
    relativeLiftF [false, false] [true, false] = RFloat.inf ∧
      zStatF [false, false] [false, false] = RFloat.nan := by
  have hc : rate [false, false] = 0 := by
    norm_num [rate, show successes [false, false] = 0 from rfl]
  have ht : rate [true, false] = 1 / 2 := by
    norm_num [rate, show successes [true, false] = 1 from rfl]
  have hv : pooledVariance [false, false] [false, false] = 0 := by
    norm_num [pooledVariance, pooledProb, show successes [false, false] = 0 from rfl]
  constructor
  · simp only [relativeLiftF, hc, ht, RFloat.div, RFloat.sub, RFloat.mul]
    norm_num
  · simp only [zStatF, hv, hc, RFloat.sqrtF, RFloat.div, RFloat.sub]
    norm_num [Real.sqrt_zero]

/-- Claim C2 as amended: on degenerate inputs the code silently
propagates IEEE special values instead of surfacing an error (warnings
are globally suppressed): a zero control rate with converting treatment
group makes the relative lift `inf`, and identical empirical rates with
zero pooled variance (e.g. all-identical outcomes in both groups) make
the z-statistic `nan`. -/
theorem degenerate_silent_propagation (c t : List Bool) :
    (rate c = 0 → 0 < rate t → relativeLiftF c t = RFloat.inf) ∧
    (rate c = rate t → pooledVariance c t = 0 → zStatF c t = RFloat.nan) := by
  constructor
  · intro hc ht
    simp only [relativeLiftF, hc, RFloat.div, if_pos rfl, if_pos ht, RFloat.sub,
      RFloat.mul]
    norm_num
  · intro hr hv
    simp only [zStatF, hv, hr, sub_self, RFloat.sqrtF, RFloat.div,
      if_neg (lt_irrefl (0 : ℝ)), Real.sqrt_zero, if_pos rfl]
    norm_num

/-- Witness for the amended C2 on one-element cohorts. -/
theorem degenerate_silent_propagation_witness :
    relativeLiftF [false] [true] = RFloat.inf ∧
      zStatF [false] [false] = RFloat.nan := by
  have hc : rate [false] = 0 := by
    norm_num [rate, show successes [false] = 0 from rfl]
  have ht : (0 : ℝ) < rate [true] := by
    norm_num [rate, show successes [true] = 1 from rfl]
  have hv : pooledVariance [false] [false] = 0 := by
    norm_num [pooledVariance, pooledProb, show successes [false] = 0 from rfl]
  exact ⟨(degenerate_silent_propagation [false] [true]).1 hc ht,
    (degenerate_silent_propagation [false] [false]).2 rfl hv⟩

/-- Claim C9: data generation and hence the whole analysis is
deterministic: the constructor reseeds the generator, so the generated
cohorts and all downstream results are independent of the ambient
generator state, i.e. identical across runs for the same configuration. -/
theorem generation_deterministic (cfg : Config) (g1 g2 : Nat) (mv aov : ℝ) :
    initAnalyzer cfg g1 = initAnalyzer cfg g2 ∧
      analyzeGenerated (initAnalyzer cfg g1) mv aov
        = analyzeGenerated (initAnalyzer cfg g2) mv aov :=
  ⟨rfl, rfl⟩

/-- Claim C10: the configured significance level has no influence on
any confidence interval: two states differing only in `alpha` get
identical results from `calculateConfidenceIntervals`. -/
theorem confidence_intervals_alpha_independent (c t : List Bool) (n : ℕ)
    (alpha1 alpha2 : ℝ) :
    calculateConfidenceIntervals ⟨c, t, n, alpha1⟩
      = calculateConfidenceIntervals ⟨c, t, n, alpha2⟩ := rfl

end ABTest
